import Mathlib

/-!
Shallow embedding of the Bias-Engine scoring-and-validation core
(go-backend/main.go, go-backend/backtest/engine.go, and the standalone
validation sweep), together with theorems settling the specification
claims about it.

Modelling conventions:
* Go `float64` values are embedded as `ℚ`, except where the source takes a
  square root (`math.Sqrt` in `calculateConsensus`), where the result lives
  in `ℝ` via `Real.sqrt`.
* Calendar dates are embedded as `ℤ` day numbers; `AddDate(0,0,n)` is `+ n`
  and the ISO-string-keyed price map becomes a function `ℤ → Option PriceData`.
* A Go map lookup `m[k]` with `exists` is `Option`-valued application.
-/

namespace BiasEngine

/-- Modelled from the spec (§3 ScoredArticle) and the field uses in
`main.go`/`scraper`: the `models.Sentiment` struct — the three-way
classifier distribution `{Positive, Neutral, Negative}`. -/
structure Sentiment where
  Positive : ℚ
  Neutral : ℚ
  Negative : ℚ
deriving DecidableEq, Repr

/-- Modelled from the spec (§3 ScoredArticle) and the field uses in
`main.go`: the `models.Article` struct, restricted to the fields the
scoring core reads.  `hoursOld` embeds `time.Since(article.Timestamp).Hours()`
at the evaluation instant (the only use of `Timestamp`). -/
structure Article where
  Source : String
  hoursOld : ℚ
  Sentiment : Sentiment
  ImpactScore : ℚ
deriving DecidableEq, Repr

/-- Risk label string returned by the classifiers (`main.go`). -/
def SafeInvestment : String := "Safe Investment"

/-- Risk label string returned by the classifiers (`main.go`). -/
def ModerateRisk : String := "Moderate Risk"

/-- Risk label string returned by the classifiers (`main.go`). -/
def HighRisk : String := "High Risk"

/-- Risk label string returned by the classifiers (`main.go`). -/
def VeryHighRisk : String := "Very High Risk"

/-- The static `sourceCredibility` table of `main.go` (lines 29-43). -/
def sourceCredibility : List (String × ℚ) :=
  [("Reuters", 1.0), ("Bloomberg", 1.0), ("Wall Street Journal", 1.0),
   ("Financial Times", 0.95), ("CNBC", 0.9), ("MarketWatch", 0.85),
   ("Seeking Alpha", 0.75), ("Motley Fool", 0.7), ("Yahoo Finance", 0.75),
   ("Investor\x27s Business", 0.8), ("Barron\x27s", 0.9), ("Forbes", 0.85),
   ("Investing.com", 0.7)]

/-- The confidence sub-score of `calculateImpactScore` (`main.go` lines 79-86):
`Positive` if it strictly exceeds both others, else `Negative` if it strictly
exceeds both others, else `Neutral`. -/
def confidenceScore (s : Sentiment) : ℚ :=
  if s.Positive > s.Negative ∧ s.Positive > s.Neutral then s.Positive
  else if s.Negative > s.Positive ∧ s.Negative > s.Neutral then s.Negative
  else s.Neutral

/-- `calculateImpactScore` (`main.go` lines 64-96): 30% credibility,
20% recency, 30% sentiment magnitude, 20% confidence. -/
def calculateImpactScore (article : Article) : ℚ :=
  let credibility := (sourceCredibility.lookup article.Source).getD 0.5
  let recencyWeight := 1.0 / (1.0 + article.hoursOld / 24.0)
  let sentimentStrength := article.Sentiment.Positive - article.Sentiment.Negative
  let sentimentMagnitude := |sentimentStrength|
  let confidence := confidenceScore article.Sentiment
  (credibility * 0.3) + (recencyWeight * 0.2) +
    (sentimentMagnitude * 0.3) + (confidence * 0.2)

/-- The running total `totalWeight` accumulated by the loops of
`calculateWeightedSentiment` and `calculateConsensus` (`main.go`). -/
def totalWeight (articles : List Article) : ℚ :=
  (articles.map (fun a => a.ImpactScore)).sum

/-- The running total `weightedSum` accumulated by the loop of
`calculateWeightedSentiment` (`main.go`): `score * weight` summed. -/
def weightedSum (articles : List Article) : ℚ :=
  (articles.map (fun a =>
    (a.Sentiment.Positive - a.Sentiment.Negative) * a.ImpactScore)).sum

/-- `calculateWeightedSentiment` (`main.go` lines 121-145): impact-weighted
mean of per-article scores `Positive - Negative`, with explicit guards
returning 0 on empty input and on zero total weight. -/
def calculateWeightedSentiment (articles : List Article) : ℚ :=
  if articles.length = 0 then 0
  else if totalWeight articles = 0 then 0
  else weightedSum articles / totalWeight articles

/-- The running total `variance` accumulated by the loop of
`calculateConsensus` (`main.go`): `weight * diff * diff` summed, where
`diff = score - mean`. -/
def weightedVariance (articles : List Article) (mean : ℚ) : ℚ :=
  (articles.map (fun a =>
    let diff := (a.Sentiment.Positive - a.Sentiment.Negative) - mean
    a.ImpactScore * diff * diff)).sum

/-- `calculateConsensus` (`main.go` lines 355-382): `1 / (1 + stdDev)` where
`stdDev = sqrt(variance / totalWeight)`, 0 on empty input or zero total
weight.  `math.Sqrt` forces the result into `ℝ`. -/
noncomputable def calculateConsensus (articles : List Article) : ℝ :=
  if articles.length = 0 then 0
  else if totalWeight articles = 0 then 0
  else
    let stdDev := Real.sqrt
      (((weightedVariance articles (calculateWeightedSentiment articles)) /
        (totalWeight articles) : ℚ) : ℝ)
    1.0 / (1.0 + stdDev)

/-- The threshold chain shared by `determineRisk`/`determineRiskWeighted`
(`main.go` lines 345-352), as a function of the adjusted score. -/
noncomputable def riskFromAdjusted (adjustedScore : ℝ) : String :=
  if adjustedScore > 0.3 then SafeInvestment
  else if adjustedScore > 0 then ModerateRisk
  else if adjustedScore > -0.3 then HighRisk
  else VeryHighRisk

/-- `determineRiskWeighted` (`main.go` lines 334-353): classify the
consensus-dampened weighted sentiment through the fixed thresholds. -/
noncomputable def determineRiskWeighted (articles : List Article) : String :=
  let avgSentiment := calculateWeightedSentiment articles
  let consensus := calculateConsensus articles
  let biasMultiplier := consensus
  let adjustedScore := (avgSentiment : ℝ) * biasMultiplier
  riskFromAdjusted adjustedScore

/-- Risk-amount rank of the four labels, most favorable first; used to state
that the classifier is a monotonically non-increasing step function. -/
def riskRank (label : String) : ℕ :=
  if label = SafeInvestment then 0
  else if label = ModerateRisk then 1
  else if label = HighRisk then 2
  else 3

/-- Modelled from the spec (§3 PricePoint) and the field uses in
`backtest/engine.go`: the `stocks.PriceData` struct, restricted to the
fields the backtest reads. -/
structure PriceData where
  Open : ℚ
  Close : ℚ
deriving DecidableEq, Repr

/-- Modelled from the spec (§3 ClassificationRecord) and the field uses in
`backtest/engine.go` and `SimulateHistoricalAnalysis`: the
`models.BacktestEntry` struct.  The derived fields default to Go zero
values, as on a record freshly loaded from the history store. -/
structure BacktestEntry where
  Company : String
  Date : ℤ
  SentimentAvg : ℚ
  RiskScore : String
  ArticleCount : ℕ
  OpenPrice : ℚ := 0
  ClosePrice1D : ℚ := 0
  ClosePrice7D : ℚ := 0
  ClosePrice30D : ℚ := 0
  Return1D : ℚ := 0
  Return7D : ℚ := 0
  Return30D : ℚ := 0
deriving DecidableEq, Repr

/-- Modelled from the spec (§4.6) and the field uses in
`backtest/engine.go`: the `models.BacktestResult` struct. -/
structure BacktestResult where
  TotalAnalyses : ℕ
  Entries : List BacktestEntry
  Accuracy1D : ℚ
  Accuracy7D : ℚ
  Accuracy30D : ℚ
deriving DecidableEq, Repr

/-- `getClosePriceNDaysLater` (`engine.go` lines 98-111): probe
`date+days+0 .. date+days+4` in order, return the first recorded close;
`0` when none of the five probed dates is in the map. -/
def getClosePriceNDaysLater (priceMap : ℤ → Option PriceData)
    (date : ℤ) (days : ℤ) : ℚ :=
  let targetDate := date + days
  match (List.range 5).findSome?
      (fun offset => priceMap (targetDate + (offset : ℤ))) with
  | some price => price.Close
  | none => 0

/-- Modelled from the spec (§4.4): `PriceWindowLookup` as the spec words it —
exact date first, then forward probes, `none` (NotFound) when no hit within
the tolerance.  Stated for comparison with `getClosePriceNDaysLater`. -/
def priceWindowLookupSpec (priceMap : ℤ → Option PriceData)
    (targetDate : ℤ) (tolerance : ℕ) : Option PriceData :=
  (List.range tolerance).findSome?
    (fun offset => priceMap (targetDate + (offset : ℤ)))

/-- The per-record enrichment step of `RunBacktest` (`engine.go` lines
60-81): look up the open on the record date; if present, attach the three
forward closes, and when the open is positive compute the three returns. -/
def enrichEntry (priceMap : ℤ → Option PriceData)
    (entry : BacktestEntry) : BacktestEntry :=
  match priceMap entry.Date with
  | none => entry
  | some openData =>
    let e := { entry with
      OpenPrice := openData.Open,
      ClosePrice1D := getClosePriceNDaysLater priceMap entry.Date 1,
      ClosePrice7D := getClosePriceNDaysLater priceMap entry.Date 7,
      ClosePrice30D := getClosePriceNDaysLater priceMap entry.Date 30 }
    if e.OpenPrice > 0 then
      { e with
        Return1D := ((e.ClosePrice1D - e.OpenPrice) / e.OpenPrice) * 100,
        Return7D := ((e.ClosePrice7D - e.OpenPrice) / e.OpenPrice) * 100,
        Return30D := ((e.ClosePrice30D - e.OpenPrice) / e.OpenPrice) * 100 }
    else e

/-- The horizon name `"1D"` used by `RunBacktest`/`calculateAccuracy`. -/
def horizon1D : String := "1D"

/-- The horizon name `"7D"` used by `RunBacktest`/`calculateAccuracy`. -/
def horizon7D : String := "7D"

/-- The horizon name `"30D"` used by `RunBacktest`/`calculateAccuracy`. -/
def horizon30D : String := "30D"

/-- The horizon switch of `calculateAccuracy` (`engine.go` lines 120-127);
an unknown horizon leaves the Go zero value 0. -/
def returnForHorizon (entry : BacktestEntry) (horizon : String) : ℚ :=
  if horizon = "1D" then entry.Return1D
  else if horizon = "7D" then entry.Return7D
  else if horizon = "30D" then entry.Return30D
  else 0

/-- The scoring chain of `calculateAccuracy` (`engine.go` lines 137-145):
whether a predicted label counts as correct for a realized return. -/
def backtestCorrect (predicted : String) (actualReturn : ℚ) : Bool :=
  if predicted = SafeInvestment ∧ actualReturn > 2 then true
  else if predicted = VeryHighRisk ∧ actualReturn < -2 then true
  else if predicted = HighRisk ∧ actualReturn < 0 then true
  else if predicted = ModerateRisk ∧ |actualReturn| < 5 then true
  else false

/-- The `(correct, total)` counters accumulated by the loop of
`calculateAccuracy` (`engine.go` lines 113-148); records whose return for
the horizon is 0 are skipped.  The loop order does not affect the counts. -/
def accuracyCounts (entries : List BacktestEntry) (horizon : String) : ℕ × ℕ :=
  match entries with
  | [] => (0, 0)
  | entry :: rest =>
    let prev := accuracyCounts rest horizon
    let actualReturn := returnForHorizon entry horizon
    if actualReturn = 0 then prev
    else (prev.1 + (if backtestCorrect entry.RiskScore actualReturn then 1 else 0),
          prev.2 + 1)

/-- `calculateAccuracy` (`engine.go` lines 113-155): percentage of correct
predictions among evaluated records, 0 when none were evaluated. -/
def calculateAccuracy (entries : List BacktestEntry) (horizon : String) : ℚ :=
  let counts := accuracyCounts entries horizon
  if counts.2 = 0 then 0
  else ((counts.1 : ℚ) / (counts.2 : ℚ)) * 100

/-- The error message of `RunBacktest` for an empty history
(`engine.go` line 37). -/
def noHistoricalDataMsg (company : String) : String :=
  "no historical data found for " ++ company

/-- `RunBacktest` (`engine.go` lines 26-96), with the collaborator fetches
abstracted away: the history records and the fetched price series are
inputs (their own failure paths are upstream acquisition errors outside
this core).  An empty history is rejected with an error; otherwise each
record is enriched and the three per-horizon accuracies are computed. -/
def RunBacktest (company : String) (entries : List BacktestEntry)
    (priceMap : ℤ → Option PriceData) : Except String BacktestResult :=
  if entries.length = 0 then .error (noHistoricalDataMsg company)
  else
    let enriched := entries.map (enrichEntry priceMap)
    .ok { TotalAnalyses := enriched.length,
          Entries := enriched,
          Accuracy1D := calculateAccuracy enriched horizon1D,
          Accuracy7D := calculateAccuracy enriched horizon7D,
          Accuracy30D := calculateAccuracy enriched horizon30D }

/-- Modelled from the spec (§4.7) and the field uses in the validation
sweep source: the `Prediction` struct of the standalone validator. -/
structure Prediction where
  Date : ℤ
  Sentiment : ℚ
  PredictedRisk : String
  ActualReturn : ℚ
  Correct : Bool
deriving DecidableEq, Repr

/-- `validatePrediction` of the validation sweep (its lines 130-141): the
second correctness rule set, with the `ModerateRisk` band `-2 < r < 5`. -/
def validatePrediction (predicted : String) (actualReturn : ℚ) : Bool :=
  if predicted = SafeInvestment ∧ actualReturn > 2 then true
  else if predicted = VeryHighRisk ∧ actualReturn < -2 then true
  else if predicted = HighRisk ∧ actualReturn < 0 then true
  else if predicted = ModerateRisk ∧ (actualReturn > -2 ∧ actualReturn < 5) then true
  else false

/-- `countCorrect` of the validation sweep (its lines 143-151). -/
def countCorrect (predictions : List Prediction) : ℕ :=
  match predictions with
  | [] => 0
  | p :: rest => (if p.Correct then 1 else 0) + countCorrect rest

/-- Go `float64` division: division by zero produces NaN/Inf, which has no
counterpart in `ℚ` and is embedded as `none`. -/
def divFloat (a b : ℚ) : Option ℚ :=
  if b = 0 then none else some (a / b)

/-- The accuracy line of `testCompany` in the validation sweep (its lines
99-100): `(countCorrect / len(predictions)) * 100` with no zero guard on
the prediction count. -/
def testCompanyAccuracy (predictions : List Prediction) : Option ℚ :=
  (divFloat ((countCorrect predictions : ℚ)) ((predictions.length : ℚ))).map
    (fun q => q * 100)

/-! Concrete inputs used by the counterexamples and witnesses below. -/

/-- A price series holding only day 0 (open 100, close 100): no price is
available on any of the probed forward dates. -/
def pmOnlyDay0 : ℤ → Option PriceData :=
  fun d => if d = 0 then some { Open := 100, Close := 100 } else none

/-- An as-loaded history record dated day 0 predicting Very High Risk. -/
def entryC1 : BacktestEntry :=
  { Company := "Tesla", Date := 0, SentimentAvg := -0.5,
    RiskScore := VeryHighRisk, ArticleCount := 3 }

/-- The company name used in concrete backtest runs. -/
def teslaName : String := "Tesla"

/-- A price series with no data at all. -/
def pmEmptyC3 : ℤ → Option PriceData := fun _ => none

/-- A price series whose only entry, on day 1, has a genuine close of 0. -/
def pmZeroCloseC3 : ℤ → Option PriceData :=
  fun d => if d = 1 then some { Open := 0, Close := 0 } else none

/-- A price series with day 0 (open 100) and day 3 (close 102) only, the
spec's weekend-gap scenario. -/
def pmC3Witness : ℤ → Option PriceData :=
  fun d => if d = 0 then some { Open := 100, Close := 100 }
    else if d = 3 then some { Open := 102, Close := 102 } else none

/-- An enriched record with a correct Safe Investment call (1D return 3%). -/
def entryC4 : BacktestEntry :=
  { Company := "Tesla", Date := 0, SentimentAvg := 0.5,
    RiskScore := SafeInvestment, ArticleCount := 2, Return1D := 3 }

/-- An enriched record with no 1D data (return 0), skipped by accuracy. -/
def entryC4z : BacktestEntry :=
  { Company := "Tesla", Date := 1, SentimentAvg := 0.1,
    RiskScore := ModerateRisk, ArticleCount := 1 }

/-- A fully positive article with unit impact weight. -/
def articleC7 : Article :=
  { Source := "Reuters", hoursOld := 0,
    Sentiment := { Positive := 1, Neutral := 0, Negative := 0 },
    ImpactScore := 1 }

/-- A fully positive article whose assigned impact weight is 0. -/
def articleZeroWeight : Article :=
  { Source := "Reuters", hoursOld := 0,
    Sentiment := { Positive := 1, Neutral := 0, Negative := 0 },
    ImpactScore := 0 }

/-! Helper lemmas shared by the claim theorems. -/

/-- The five probe offsets of `getClosePriceNDaysLater`. -/
theorem range5 : List.range 5 = [0, 1, 2, 3, 4] := by decide

/-- The accuracy loop counts exactly the evaluated (nonzero-return) records
and the correct ones among them. -/
theorem accuracyCounts_eq (entries : List BacktestEntry) (horizon : String) :
    accuracyCounts entries horizon =
      (entries.countP (fun e => decide (returnForHorizon e horizon ≠ 0) &&
          backtestCorrect e.RiskScore (returnForHorizon e horizon)),
       entries.countP (fun e => decide (returnForHorizon e horizon ≠ 0))) := by
  induction entries with
  | nil => simp [accuracyCounts]
  | cons entry rest ih =>
    by_cases hr : returnForHorizon entry horizon = 0 <;>
      by_cases hb : backtestCorrect entry.RiskScore
        (returnForHorizon entry horizon) = true <;>
      simp [accuracyCounts, List.countP_cons, hr, hb, ih]

/-- Rank of the Safe Investment label. -/
theorem riskRank_safe : riskRank SafeInvestment = 0 := by decide

/-- Rank of the Moderate Risk label. -/
theorem riskRank_moderate : riskRank ModerateRisk = 1 := by decide

/-- Rank of the High Risk label. -/
theorem riskRank_high : riskRank HighRisk = 2 := by decide

/-- Rank of the Very High Risk label. -/
theorem riskRank_veryHigh : riskRank VeryHighRisk = 3 := by decide

/-- The rank of the classified label as a step function of the adjusted
score. -/
theorem riskRank_riskFromAdjusted (x : ℝ) :
    riskRank (riskFromAdjusted x) =
      if x > 0.3 then 0 else if x > 0 then 1 else if x > -0.3 then 2 else 3 := by
  simp only [riskFromAdjusted]
  split_ifs <;>
    simp [riskRank_safe, riskRank_moderate, riskRank_high, riskRank_veryHigh]

/-- With nonnegative weights and per-article scores of magnitude at most 1,
the weighted sum is dominated by the total weight. -/
theorem abs_weightedSum_le (articles : List Article)
    (hw : ∀ a ∈ articles, 0 ≤ a.ImpactScore)
    (hs : ∀ a ∈ articles, |a.Sentiment.Positive - a.Sentiment.Negative| ≤ 1) :
    |weightedSum articles| ≤ totalWeight articles := by
  induction articles with
  | nil => simp [weightedSum, totalWeight]
  | cons a l ih =>
    simp only [weightedSum, totalWeight, List.map_cons, List.sum_cons] at *
    have hw0 : 0 ≤ a.ImpactScore := hw a (List.mem_cons_self a l)
    have hs0 := hs a (List.mem_cons_self a l)
    have ihh := ih (fun b hb => hw b (List.mem_cons_of_mem a hb))
      (fun b hb => hs b (List.mem_cons_of_mem a hb))
    have h1 : |(a.Sentiment.Positive - a.Sentiment.Negative) * a.ImpactScore|
        ≤ a.ImpactScore := by
      rw [abs_mul, abs_of_nonneg hw0]
      calc |a.Sentiment.Positive - a.Sentiment.Negative| * a.ImpactScore
          ≤ 1 * a.ImpactScore := mul_le_mul_of_nonneg_right hs0 hw0
        _ = a.ImpactScore := one_mul _
    exact le_trans (abs_add _ _) (by linarith)

/-! Claim theorems. -/

/-- C1: the claim says a horizon with no forward price within tolerance is
marked "no data", never computed as a numeric return from a zero close.
The code disagrees: on a record with anchor open 100 on day 0 and no price
on days 1-5, `getClosePriceNDaysLater` yields the sentinel close 0 and
`RunBacktest` computes `Return1D = ((0 - 100)/100)*100 = -100`, a numeric
return that `calculateAccuracy` then treats as evaluated data (here even
scoring the Very High Risk call as correct, accuracy 100). -/
theorem C1_missing_forward_price_yields_numeric_return :
    (enrichEntry pmOnlyDay0 entryC1).OpenPrice = 100 ∧
    (enrichEntry pmOnlyDay0 entryC1).ClosePrice1D = 0 ∧
    (enrichEntry pmOnlyDay0 entryC1).Return1D = -100 ∧
    calculateAccuracy [enrichEntry pmOnlyDay0 entryC1] horizon1D = 100 := by
  refine ⟨?_, ?_, ?_, ?_⟩ <;>
    simp [enrichEntry, entryC1, pmOnlyDay0, getClosePriceNDaysLater, range5,
      List.findSome?, calculateAccuracy, accuracyCounts, returnForHorizon,
      backtestCorrect, horizon1D, VeryHighRisk, SafeInvestment]
  norm_num

/-- C2 counterexample: a backtest over zero historical records is an error,
not a defined zero/neutral result — `RunBacktest` rejects an empty history
outright. -/
theorem C2_counterexample : RunBacktest teslaName [] pmOnlyDay0
    = Except.error (noHistoricalDataMsg teslaName) := rfl

/-- C2 (amended): aggregation over zero articles returns the defined zero
result, while a backtest over zero historical records fails with an error —
i.e. a request fails outright exactly when it has zero usable input, and
succeeds on any nonempty history. -/
theorem C2_empty_input_amended :
    calculateWeightedSentiment [] = 0 ∧
    (∀ company priceMap,
      RunBacktest company [] priceMap
        = Except.error (noHistoricalDataMsg company)) ∧
    (∀ company entry entries priceMap, ∃ result,
      RunBacktest company (entry :: entries) priceMap = Except.ok result) := by
  refine ⟨rfl, fun company priceMap => rfl, ?_⟩
  intro company entry entries priceMap
  simp [RunBacktest]

/-- C3 counterexample: when no date within the search window is present,
the lookup returns the price value 0 — indistinguishable from a series
whose recorded close genuinely is 0 — rather than an explicit NotFound. -/
theorem C3_counterexample :
    getClosePriceNDaysLater pmEmptyC3 0 1 = 0 ∧
    getClosePriceNDaysLater pmZeroCloseC3 0 1 = 0 := by
  constructor <;>
    simp [getClosePriceNDaysLater, pmEmptyC3, pmZeroCloseC3, range5,
      List.findSome?]

/-- C3 (amended): the lookup tries the exact target date first and probes
`target+1 .. target+4` (five probes in all), returning the close of the
first chronological hit; when no date in the window is present it returns
the sentinel price 0, not an explicit NotFound.  The first conjunct relates
the code's function to the spec-worded `priceWindowLookupSpec`. -/
theorem C3_lookup_amended (priceMap : ℤ → Option PriceData) (date days : ℤ) :
    (getClosePriceNDaysLater priceMap date days =
      match priceWindowLookupSpec priceMap (date + days) 5 with
      | some price => price.Close
      | none => 0) ∧
    (∀ k : ℕ, k < 5 → ∀ price, priceMap (date + days + (k : ℤ)) = some price →
      (∀ j : ℕ, j < k → priceMap (date + days + (j : ℤ)) = none) →
      getClosePriceNDaysLater priceMap date days = price.Close) ∧
    ((∀ j : ℕ, j < 5 → priceMap (date + days + (j : ℤ)) = none) →
      getClosePriceNDaysLater priceMap date days = 0) := by
  refine ⟨rfl, ?_, ?_⟩
  · intro k hk price hhit hnone
    interval_cases k
    · simp_all [getClosePriceNDaysLater, range5, List.findSome?]
    · have h0 := hnone 0 (by norm_num)
      clear hnone
      simp_all [getClosePriceNDaysLater, range5, List.findSome?]
    · have h0 := hnone 0 (by norm_num)
      have h1 := hnone 1 (by norm_num)
      clear hnone
      simp_all [getClosePriceNDaysLater, range5, List.findSome?]
    · have h0 := hnone 0 (by norm_num)
      have h1 := hnone 1 (by norm_num)
      have h2 := hnone 2 (by norm_num)
      clear hnone
      simp_all [getClosePriceNDaysLater, range5, List.findSome?]
    · have h0 := hnone 0 (by norm_num)
      have h1 := hnone 1 (by norm_num)
      have h2 := hnone 2 (by norm_num)
      have h3 := hnone 3 (by norm_num)
      clear hnone
      simp_all [getClosePriceNDaysLater, range5, List.findSome?]
  · intro hnone
    have h0 := hnone 0 (by norm_num)
    have h1 := hnone 1 (by norm_num)
    have h2 := hnone 2 (by norm_num)
    have h3 := hnone 3 (by norm_num)
    have h4 := hnone 4 (by norm_num)
    clear hnone
    simp_all [getClosePriceNDaysLater, range5, List.findSome?]

/-- C3 witness: the spec's weekend scenario — target day 1 missing, first
hit on day 3 with close 102 — resolved through the amended theorem. -/
theorem C3_lookup_amended_witness :
    getClosePriceNDaysLater pmC3Witness 0 1 = 102 := by
  have h := (C3_lookup_amended pmC3Witness 0 1).2.1 2 (by norm_num)
      { Open := 102, Close := 102 } (by norm_num [pmC3Witness]) ?_
  · simpa using h
  · intro j hj
    interval_cases j <;> norm_num [pmC3Witness]

/-- C4: for each horizon in {1D, 7D, 30D}, accuracy equals
`100 × correct / evaluated` over the records with a nonzero realized return
for that horizon, and is exactly 0 (never undefined) when no record is
evaluable. -/
theorem C4_accuracy_characterization (entries : List BacktestEntry)
    (horizon : String)
    (h : horizon = "1D" ∨ horizon = "7D" ∨ horizon = "30D") :
    calculateAccuracy entries horizon =
      if entries.countP (fun e => decide (returnForHorizon e horizon ≠ 0)) = 0
      then 0
      else ((entries.countP (fun e => decide (returnForHorizon e horizon ≠ 0) &&
                backtestCorrect e.RiskScore (returnForHorizon e horizon)) : ℚ) /
            (entries.countP (fun e => decide (returnForHorizon e horizon ≠ 0)) : ℚ))
            * 100 := by
  simp [calculateAccuracy, accuracyCounts_eq]

/-- C4 witness: one correct Safe Investment record plus one no-data record
give accuracy 100 for the 1D horizon. -/
theorem C4_accuracy_characterization_witness :
    calculateAccuracy [entryC4, entryC4z] horizon1D = 100 := by
  rw [C4_accuracy_characterization [entryC4, entryC4z] horizon1D (Or.inl rfl)]
  simp [List.countP_cons, returnForHorizon, backtestCorrect, entryC4, entryC4z,
    SafeInvestment, VeryHighRisk, ModerateRisk, HighRisk, horizon1D]
  norm_num

/-- C5 counterexample: for the distribution (0.4, 0.2, 0.4) — components in
[0,1] summing to 1 — the confidence sub-score is the neutral component 0.2,
not the maximum 0.4: the positive/negative tie falls through both strict
comparisons. -/
theorem C5_counterexample :
    confidenceScore { Positive := 2/5, Neutral := 1/5, Negative := 2/5 } ≠
      max (2/5 : ℚ) (max (2/5) (1/5)) := by
  norm_num [confidenceScore]

/-- C5 (amended): the confidence sub-score equals the maximum of the three
sentiment components except when the positive and negative components tie
strictly above the neutral one; equivalently, it is the maximum whenever
positive ≠ negative or positive ≤ neutral. -/
theorem C5_confidence_amended (s : Sentiment)
    (h : s.Positive ≠ s.Negative ∨ s.Positive ≤ s.Neutral) :
    confidenceScore s = max s.Positive (max s.Negative s.Neutral) := by
  by_cases h1 : s.Positive > s.Negative ∧ s.Positive > s.Neutral
  · simp only [confidenceScore, if_pos h1]
    exact (max_eq_left (max_le h1.1.le h1.2.le)).symm
  · by_cases h2 : s.Negative > s.Positive ∧ s.Negative > s.Neutral
    · simp only [confidenceScore, if_neg h1, if_pos h2]
      rw [max_eq_left h2.2.le, max_eq_right h2.1.le]
    · simp only [confidenceScore, if_neg h1, if_neg h2]
      push_neg at h1 h2
      have hNu : s.Negative ≤ s.Neutral := by
        rcases lt_trichotomy s.Positive s.Negative with hpn | hpn | hpn
        · exact h2 hpn
        · rcases h with h | h
          · exact absurd hpn h
          · linarith
        · have := h1 hpn
          linarith
      have hPu : s.Positive ≤ s.Neutral := by
        rcases lt_trichotomy s.Positive s.Negative with hpn | hpn | hpn
        · have := h2 hpn
          linarith
        · rcases h with h | h
          · exact absurd hpn h
          · exact h
        · exact h1 hpn
      rw [max_eq_right hNu, max_eq_right hPu]

/-- C5 witness: on the distribution (0.7, 0.2, 0.1) the amended theorem
gives confidence 0.7, the maximum component. -/
theorem C5_confidence_amended_witness :
    ((0.7 : ℚ) ≠ 0.1 ∨ (0.7 : ℚ) ≤ 0.2) ∧
    confidenceScore { Positive := 0.7, Neutral := 0.2, Negative := 0.1 }
      = max (0.7 : ℚ) (max 0.1 0.2) := by
  refine ⟨Or.inl (by norm_num), ?_⟩
  exact C5_confidence_amended
    { Positive := 0.7, Neutral := 0.2, Negative := 0.1 } (Or.inl (by norm_num))

/-- C6: the weighted risk classifier equals the threshold chain applied to
`adjusted = value · consensus`; the chain is the ordered first-match rule
(`> 0.3`, `> 0`, `> −0.3`, else), i.e. a deterministic step function with
boundaries exactly at 0.3, 0, −0.3, and its risk rank is monotonically
non-increasing in the adjusted score. -/
theorem C6_risk_classifier :
    (∀ articles, determineRiskWeighted articles =
      riskFromAdjusted ((calculateWeightedSentiment articles : ℝ) *
        calculateConsensus articles)) ∧
    (∀ x : ℝ,
      (x > 0.3 → riskFromAdjusted x = SafeInvestment) ∧
      (x ≤ 0.3 → x > 0 → riskFromAdjusted x = ModerateRisk) ∧
      (x ≤ 0 → x > -0.3 → riskFromAdjusted x = HighRisk) ∧
      (x ≤ -0.3 → riskFromAdjusted x = VeryHighRisk)) ∧
    (∀ x y : ℝ, x ≤ y →
      riskRank (riskFromAdjusted y) ≤ riskRank (riskFromAdjusted x)) := by
  refine ⟨fun articles => rfl, ?_, ?_⟩
  · intro x
    refine ⟨?_, ?_, ?_, ?_⟩
    · intro h
      simp only [riskFromAdjusted]
      rw [if_pos h]
    · intro h1 h2
      simp only [riskFromAdjusted]
      rw [if_neg (by linarith), if_pos h2]
    · intro h1 h2
      simp only [riskFromAdjusted]
      rw [if_neg (by linarith), if_neg (by linarith), if_pos h2]
    · intro h1
      simp only [riskFromAdjusted]
      rw [if_neg (by linarith), if_neg (by linarith), if_neg (by linarith)]
  · intro x y hxy
    rw [riskRank_riskFromAdjusted, riskRank_riskFromAdjusted]
    split_ifs <;> first | omega | linarith

/-- C6 witness: the four threshold regions at the concrete adjusted scores
1, 0.2, −0.2, −1. -/
theorem C6_risk_classifier_witness :
    riskFromAdjusted 1 = SafeInvestment ∧
    riskFromAdjusted 0.2 = ModerateRisk ∧
    riskFromAdjusted (-0.2) = HighRisk ∧
    riskFromAdjusted (-1) = VeryHighRisk := by
  refine ⟨(C6_risk_classifier.2.1 1).1 (by norm_num),
    (C6_risk_classifier.2.1 0.2).2.1 (by norm_num) (by norm_num),
    (C6_risk_classifier.2.1 (-0.2)).2.2.1 (by norm_num) (by norm_num),
    (C6_risk_classifier.2.1 (-1)).2.2.2 (by norm_num)⟩

/-- C7 counterexample: a single article with components in [0,1] summing
to 1 but assigned impact weight 0 drives the aggregator's total weight to
0, and the consensus is then 0, outside the claimed interval (0,1]. -/
theorem C7_counterexample :
    (0 ≤ articleZeroWeight.Sentiment.Positive ∧
      articleZeroWeight.Sentiment.Positive ≤ 1 ∧
      0 ≤ articleZeroWeight.Sentiment.Neutral ∧
      articleZeroWeight.Sentiment.Neutral ≤ 1 ∧
      0 ≤ articleZeroWeight.Sentiment.Negative ∧
      articleZeroWeight.Sentiment.Negative ≤ 1 ∧
      articleZeroWeight.Sentiment.Positive + articleZeroWeight.Sentiment.Neutral
        + articleZeroWeight.Sentiment.Negative = 1) ∧
    calculateConsensus [articleZeroWeight] = 0 := by
  constructor
  · norm_num [articleZeroWeight]
  · simp [calculateConsensus, totalWeight, articleZeroWeight]

/-- C7 (amended): for every article list whose sentiment components lie in
[0,1] and sum to 1, whose impact weights are nonnegative, and whose total
impact weight is positive, the aggregated value lies in [−1,1] and the
consensus lies in (0,1]. -/
theorem C7_bounds_amended (articles : List Article)
    (hs : ∀ a ∈ articles,
      0 ≤ a.Sentiment.Positive ∧ a.Sentiment.Positive ≤ 1 ∧
      0 ≤ a.Sentiment.Neutral ∧ a.Sentiment.Neutral ≤ 1 ∧
      0 ≤ a.Sentiment.Negative ∧ a.Sentiment.Negative ≤ 1 ∧
      a.Sentiment.Positive + a.Sentiment.Neutral + a.Sentiment.Negative = 1)
    (hw : ∀ a ∈ articles, 0 ≤ a.ImpactScore)
    (hpos : 0 < totalWeight articles) :
    (-1 ≤ calculateWeightedSentiment articles ∧
      calculateWeightedSentiment articles ≤ 1) ∧
    (0 < calculateConsensus articles ∧ calculateConsensus articles ≤ 1) := by
  have hlen : articles.length ≠ 0 := by
    intro hl
    rw [List.length_eq_zero] at hl
    subst hl
    simp [totalWeight] at hpos
  have habs : |weightedSum articles| ≤ totalWeight articles := by
    refine abs_weightedSum_le articles hw (fun a ha => ?_)
    obtain ⟨h1, h2, _, _, h5, h6, _⟩ := hs a ha
    rw [abs_le]
    constructor <;> linarith
  rw [abs_le] at habs
  constructor
  · rw [calculateWeightedSentiment, if_neg hlen, if_neg hpos.ne']
    constructor
    · rw [le_div_iff₀ hpos]
      linarith
    · rw [div_le_one hpos]
      linarith
  · have hform : calculateConsensus articles =
        1.0 / (1.0 + Real.sqrt (((weightedVariance articles
          (calculateWeightedSentiment articles)) /
          (totalWeight articles) : ℚ) : ℝ)) := by
      rw [calculateConsensus, if_neg hlen, if_neg hpos.ne']
    rw [hform]
    have hsq : (0:ℝ) ≤ Real.sqrt (((weightedVariance articles
        (calculateWeightedSentiment articles)) /
        (totalWeight articles) : ℚ) : ℝ) := Real.sqrt_nonneg _
    have hden : (0:ℝ) < 1.0 + Real.sqrt (((weightedVariance articles
        (calculateWeightedSentiment articles)) /
        (totalWeight articles) : ℚ) : ℝ) := by positivity
    constructor
    · exact div_pos (by norm_num) hden
    · rw [div_le_one hden]
      linarith

/-- C7 witness: a single fully positive article with weight 1 — value 1 and
consensus in (0,1]. -/
theorem C7_bounds_amended_witness :
    (-1 ≤ calculateWeightedSentiment [articleC7] ∧
      calculateWeightedSentiment [articleC7] ≤ 1) ∧
    (0 < calculateConsensus [articleC7] ∧ calculateConsensus [articleC7] ≤ 1) :=
  C7_bounds_amended [articleC7]
    (by intro a ha; simp at ha; subst ha; norm_num [articleC7])
    (by intro a ha; simp at ha; subst ha; norm_num [articleC7])
    (by norm_num [totalWeight, articleC7])

/-- C8 counterexample: a single article with score 1 but impact weight 0
makes the aggregator return 0, not the article's own score — the weight
does not cancel when it is 0. -/
theorem C8_counterexample :
    articleZeroWeight.Sentiment.Positive -
      articleZeroWeight.Sentiment.Negative = 1 ∧
    calculateWeightedSentiment [articleZeroWeight] = 0 := by
  constructor
  · norm_num [articleZeroWeight]
  · simp [calculateWeightedSentiment, totalWeight, articleZeroWeight]

/-- C8 (amended): the aggregator on empty input returns value 0 and
consensus 0; on a single article with nonzero impact weight the weighted
mean equals the article's own score, the weight cancelling. -/
theorem C8_aggregator_amended :
    calculateWeightedSentiment [] = 0 ∧
    calculateConsensus [] = 0 ∧
    (∀ a : Article, a.ImpactScore ≠ 0 →
      calculateWeightedSentiment [a]
        = a.Sentiment.Positive - a.Sentiment.Negative) := by
  refine ⟨rfl, by simp [calculateConsensus], ?_⟩
  intro a hw
  rw [calculateWeightedSentiment, if_neg (by simp),
    if_neg (by simpa [totalWeight] using hw)]
  simp only [weightedSum, totalWeight, List.map_cons, List.map_nil,
    List.sum_cons, List.sum_nil, add_zero]
  exact mul_div_cancel_right₀ _ hw

/-- C8 witness: the single-article case at weight 1 through the amended
theorem. -/
theorem C8_aggregator_amended_witness :
    articleC7.ImpactScore ≠ 0 ∧
    calculateWeightedSentiment [articleC7]
      = articleC7.Sentiment.Positive - articleC7.Sentiment.Negative :=
  ⟨by norm_num [articleC7],
   C8_aggregator_amended.2.2 articleC7 (by norm_num [articleC7])⟩

/-- C9: the validation sweep's rule set agrees with the backtest rule set
on Safe Investment, High Risk and Very High Risk, while its Moderate Risk
band is `−2 < return < 5` against the backtest's `|return| < 5`; the two
disagree, e.g. at return −3. -/
theorem C9_two_rule_sets :
    (∀ r : ℚ, validatePrediction SafeInvestment r
      = backtestCorrect SafeInvestment r) ∧
    (∀ r : ℚ, validatePrediction HighRisk r = backtestCorrect HighRisk r) ∧
    (∀ r : ℚ, validatePrediction VeryHighRisk r
      = backtestCorrect VeryHighRisk r) ∧
    (∀ r : ℚ, validatePrediction ModerateRisk r = decide (-2 < r ∧ r < 5)) ∧
    (∀ r : ℚ, backtestCorrect ModerateRisk r = decide (|r| < 5)) ∧
    validatePrediction ModerateRisk (-3) ≠ backtestCorrect ModerateRisk (-3) := by
  have hSV : SafeInvestment ≠ VeryHighRisk := by decide
  have hSH : SafeInvestment ≠ HighRisk := by decide
  have hSM : SafeInvestment ≠ ModerateRisk := by decide
  have hHS : HighRisk ≠ SafeInvestment := by decide
  have hHV : HighRisk ≠ VeryHighRisk := by decide
  have hHM : HighRisk ≠ ModerateRisk := by decide
  have hVS : VeryHighRisk ≠ SafeInvestment := by decide
  have hVH : VeryHighRisk ≠ HighRisk := by decide
  have hVM : VeryHighRisk ≠ ModerateRisk := by decide
  have hMS : ModerateRisk ≠ SafeInvestment := by decide
  have hMV : ModerateRisk ≠ VeryHighRisk := by decide
  have hMH : ModerateRisk ≠ HighRisk := by decide
  refine ⟨?_, ?_, ?_, ?_, ?_, ?_⟩
  · intro r
    simp [validatePrediction, backtestCorrect, hSV, hSH, hSM]
  · intro r
    simp [validatePrediction, backtestCorrect, hHS, hHV, hHM]
  · intro r
    simp [validatePrediction, backtestCorrect, hVS, hVH, hVM]
  · intro r
    by_cases hc : (-2:ℚ) < r ∧ r < 5 <;>
      simp [validatePrediction, hMS, hMV, hMH, hc]
  · intro r
    by_cases hc : |r| < 5 <;>
      simp [backtestCorrect, hMS, hMV, hMH, hc]
  · have h1 : validatePrediction ModerateRisk (-3) = false := by
      simp [validatePrediction, hMS, hMV, hMH]
      norm_num
    have h2 : backtestCorrect ModerateRisk (-3) = true := by
      simp [backtestCorrect, hMS, hMV, hMH]
      norm_num
    simp [h1, h2]

/-- C10: on a sweep producing zero predictions the validator's accuracy is
the unguarded quotient 0/0 — zero correct over a zero prediction count with
the division-by-zero reached (`none` embeds the float NaN) — whereas the
backtest evaluator's accuracy has an explicit zero guard and returns 0 for
every horizon over an empty record list. -/
theorem C10_unguarded_division :
    testCompanyAccuracy [] = none ∧
    countCorrect [] = 0 ∧
    ([] : List Prediction).length = 0 ∧
    (∀ horizon, calculateAccuracy [] horizon = 0) := by
  refine ⟨?_, rfl, rfl, fun horizon => rfl⟩
  simp [testCompanyAccuracy, countCorrect, divFloat]

end BiasEngine
